import Mathlib

/-!
Shallow embedding of the visual-regression comparison and reporting
pipeline of the fanvue-qa-automation repository.

Embedded source:
* `VisualTestHelper.compareScreenshots` and
  `VisualTestHelper.generateDiffReport` (visual testing utilities file);
* `generateTestSummary` / `processSpec` (global-teardown file).

The repository delegates per-pixel comparison to the external
`pixelmatch` npm library; that library is not part of the repository, so
it is modelled here at the granularity of its documented behaviour: the
YIQ perceptual color-distance metric with white-background alpha
blending, a squared-distance cutoff of `35215 * threshold^2`, and a
thrown error when buffer sizes disagree.  The library's anti-aliasing
refinement (which can only exempt pixels sitting on a brightness
gradient) is not modelled; no statement below depends on inputs where it
could fire (all concrete images used are built from uniform-color
regions, on which the anti-aliasing test always answers `false`).

Machine floats are modelled by `ℚ`; file-system effects are modelled by
passing an explicit `String → Option PNGImage` map and returning the
list of file writes the call performs.
-/

/-- One RGBA pixel, each channel a byte `0..255`.  Stands for four
consecutive entries of a PNG data buffer. -/
structure Pixel where
  r : Nat
  g : Nat
  b : Nat
  a : Nat
deriving DecidableEq, Repr

/-- A decoded PNG: dimensions plus the row-major pixel buffer, as
produced by `PNG.sync.read`.  A well-formed PNG has
`data.length = width * height`. -/
structure PNGImage where
  width : Nat
  height : Nat
  data : List Pixel
deriving DecidableEq, Repr

/-- `blend` of the external pixelmatch library: composite a channel over
a white background with alpha `a ∈ [0,1]`. -/
def blend (c : ℚ) (a : ℚ) : ℚ := 255 + (c - 255) * a

/-- Alpha-premultiplication step of pixelmatch's `colorDelta`: channels
are blended over white when the pixel is not fully opaque. -/
def blendPixel (p : Pixel) : ℚ × ℚ × ℚ :=
  if p.a < 255 then
    let al : ℚ := (p.a : ℚ) / 255
    (blend (p.r : ℚ) al, blend (p.g : ℚ) al, blend (p.b : ℚ) al)
  else ((p.r : ℚ), (p.g : ℚ), (p.b : ℚ))

/-- pixelmatch's `rgb2y` luma coefficient row. -/
def rgb2y (r g b : ℚ) : ℚ :=
  r * (29889531 / 100000000) + g * (58662247 / 100000000) + b * (11448223 / 100000000)

/-- pixelmatch's `rgb2i` chroma coefficient row. -/
def rgb2i (r g b : ℚ) : ℚ :=
  r * (59597799 / 100000000) - g * (27417610 / 100000000) - b * (32180189 / 100000000)

/-- pixelmatch's `rgb2q` chroma coefficient row. -/
def rgb2q (r g b : ℚ) : ℚ :=
  r * (21147017 / 100000000) - g * (52261711 / 100000000) + b * (31114694 / 100000000)

/-- pixelmatch's `colorDelta`: `0` for byte-identical pixels, otherwise
the weighted squared YIQ distance, negated when the first pixel is
brighter (the sign only steers output shading). -/
def colorDelta (p q : Pixel) : ℚ :=
  if p = q then 0
  else
    let c1 := blendPixel p
    let c2 := blendPixel q
    let y1 := rgb2y c1.1 c1.2.1 c1.2.2
    let y2 := rgb2y c2.1 c2.2.1 c2.2.2
    let i := rgb2i c1.1 c1.2.1 c1.2.2 - rgb2i c2.1 c2.2.1 c2.2.2
    let q2 := rgb2q c1.1 c1.2.1 c1.2.2 - rgb2q c2.1 c2.2.1 c2.2.2
    let y := y1 - y2
    let delta := (5053 / 10000) * y * y + (299 / 1000) * i * i + (1957 / 10000) * q2 * q2
    if y1 > y2 then -delta else delta

/-- pixelmatch's difference cutoff: a pixel pair counts as different
when the absolute color delta exceeds `35215 * threshold^2`. -/
def maxDelta (threshold : ℚ) : ℚ := 35215 * threshold * threshold

/-- Executable absolute value on `ℚ` (agrees with `|·|`, see
`absQ_eq_abs`; kept separate so that concrete runs reduce inside
`decide`). -/
def absQ (x : ℚ) : ℚ := if x < 0 then -x else x

theorem absQ_eq_abs (x : ℚ) : absQ x = |x| := by
  unfold absQ
  split
  · exact (abs_of_neg (by assumption)).symm
  · exact (abs_of_nonneg (by linarith [not_lt.mp (by assumption)])).symm

/-- Whether one pixel pair differs beyond the per-pixel threshold. -/
def pixelDiffers (threshold : ℚ) (p q : Pixel) : Bool :=
  decide (maxDelta threshold < absQ (colorDelta p q))

/-- Equality of `Except` results is decidable componentwise. -/
instance {ε α : Type} [DecidableEq ε] [DecidableEq α] : DecidableEq (Except ε α) := fun a b =>
  match a, b with
  | .error e, .error f => decidable_of_iff (e = f) (by simp)
  | .ok x, .ok y => decidable_of_iff (x = y) (by simp)
  | .error _, .ok _ => isFalse (fun h => Except.noConfusion h)
  | .ok _, .error _ => isFalse (fun h => Except.noConfusion h)

/-- Number of differing pixel positions between two equal-length
buffers, per the pixelmatch cutoff. -/
def pixelmatchCount (img1 img2 : List Pixel) (threshold : ℚ) : Nat :=
  (img1.zip img2).countP (fun pq => pixelDiffers threshold pq.1 pq.2)

/-- Model of the external `pixelmatch(img1, img2, output, width, height,
\x7bthreshold\x7d)` call: it throws when the buffer sizes disagree with
each other or with `width * height`, and otherwise returns the count of
differing pixels. -/
def pixelmatch (img1 img2 : List Pixel) (width height : Nat) (threshold : ℚ) :
    Except String Nat :=
  if img1.length ≠ img2.length then .error "Image sizes do not match"
  else if img1.length ≠ width * height then .error "Image data size does not match width and height"
  else .ok (pixelmatchCount img1 img2 threshold)

/-- The diff bitmap pixelmatch renders into the `diff` PNG: differing
pixels in a highlight color over a neutral rendering of the rest (the
exact grayscale arithmetic of the external library is irrelevant to the
claims and is fixed to a neutral gray here). -/
def diffRender (base act : PNGImage) (threshold : ℚ) : PNGImage :=
  { width := act.width
    height := act.height
    data := (base.data.zip act.data).map (fun pq =>
      if pixelDiffers threshold pq.1 pq.2 then ⟨255, 0, 0, 255⟩ else ⟨128, 128, 128, 255⟩) }

/-- Result record returned by `compareScreenshots` (source fields
`match`, `diffPixels`, `diffPercentage`; `match` is a Lean keyword so
the field is named `matched`). -/
structure CompareResult where
  matched : Bool
  diffPixels : Nat
  diffPercentage : ℚ
deriving DecidableEq, Repr

namespace VisualTestHelper

/-- `VisualTestHelper.compareScreenshots(actualPath, baselinePath,
diffPath)` over an explicit file system `fs`.  Mirrors the source: read
and decode the actual then the baseline PNG (a missing file throws),
take `width`/`height` from the actual image, run pixelmatch with the
configured threshold, write the diff PNG at `diffPath` only when
`numDiffPixels > 0`, and return `\x7b match: numDiffPixels === 0,
diffPixels: numDiffPixels, diffPercentage: (numDiffPixels / (width *
height)) * 100 \x7d`.  The returned list is the file writes performed
(`ensureDirectoryExists` only creates directories, so it contributes no
file write). -/
def compareScreenshots (fs : String → Option PNGImage)
    (actualPath baselinePath diffPath : String) (threshold : ℚ) :
    Except String (CompareResult × List (String × PNGImage)) :=
  match fs actualPath with
  | none => .error "ENOENT: no such file, actual screenshot"
  | some actual =>
    match fs baselinePath with
    | none => .error "ENOENT: no such file, baseline screenshot"
    | some baseline =>
      match pixelmatch baseline.data actual.data actual.width actual.height threshold with
      | .error e => .error e
      | .ok numDiffPixels =>
        let writes :=
          if numDiffPixels > 0 then
            [(diffPath, diffRender baseline actual threshold)]
          else []
        .ok ({ matched := numDiffPixels == 0
               diffPixels := numDiffPixels
               diffPercentage := ((numDiffPixels : ℚ) / ((actual.width : ℚ) * (actual.height : ℚ))) * 100 },
             writes)

end VisualTestHelper

/-- Apply a list of file writes to a file-system map, later writes
winning. -/
def applyWrites (fs : String → Option PNGImage) (ws : List (String × PNGImage)) :
    String → Option PNGImage :=
  ws.foldl (fun f w => fun p => if p = w.1 then some w.2 else f p) fs

/-- A mask rectangle (the spec's Mask Region): pixel columns
`x ≤ c < x + w` and rows `y ≤ r < y + h`. -/
structure Rect where
  x : Nat
  y : Nat
  w : Nat
  h : Nat
deriving DecidableEq, Repr

/-- Whether the pixel at column `c`, row `r` lies inside the rectangle. -/
def Rect.contains (rect : Rect) (c r : Nat) : Bool :=
  decide (rect.x ≤ c) && decide (c < rect.x + rect.w) &&
  decide (rect.y ≤ r) && decide (r < rect.y + rect.h)

/-- The spec-side predicate for claim C4: the two images agree
byte-for-byte at every pixel position outside the given mask
rectangles (positions are taken row-major against the first image's
width). -/
def differOnlyInside (rects : List Rect) (img1 img2 : PNGImage) : Bool :=
  (List.range img1.data.length).all (fun i =>
    img1.data.getD i ⟨0, 0, 0, 0⟩ == img2.data.getD i ⟨0, 0, 0, 0⟩ ||
    rects.any (fun rect => rect.contains (i % img1.width) (i / img1.width)))

/-- One entry of the `results` array handed to
`VisualTestHelper.generateDiffReport` (fields as consumed by the
template: `name`, `match` — here `matched` —, `diffPixels`,
`diffPercentage`, and the three image URLs). -/
structure VisualResult where
  name : String
  matched : Bool
  diffPixels : Nat
  diffPercentage : ℚ
  baselineUrl : String
  actualUrl : String
  diffUrl : String
deriving DecidableEq, Repr

/-- Model of JavaScript `Number.prototype.toFixed(2)` on the exact
rational standing in for the float: round to two decimals, half away
from the floor, and print with a two-digit fraction (the percentages
produced by `compareScreenshots` are nonnegative). -/
def toFixed2 (x : ℚ) : String :=
  let n : ℤ := ⌊x * 100 + 1 / 2⌋
  let fp := (n % 100).natAbs
  toString (n / 100) ++ "." ++ (if fp < 10 then "0" ++ toString fp else toString fp)

/-- The status word rendered for one result:
`result.match ? 'PASSED' : 'FAILED'`. -/
def statusText (r : VisualResult) : String :=
  if r.matched then "PASSED" else "FAILED"

/-- The per-result block of `generateDiffReport`'s template (the
`results.map(...)` callback), with each `$\x7b...\x7d` interpolation
replaced by explicit string concatenation. -/
def renderResultBlock (r : VisualResult) : String :=
  "\n    <div class=\"test " ++ (if r.matched then "pass" else "fail") ++ "\">\n" ++
  "      <h3>" ++ r.name ++ "</h3>\n" ++
  "      <div class=\"stats\">\n" ++
  "        <strong>Status:</strong> " ++ statusText r ++ "<br>\n        " ++
  (if !r.matched then
    "\n          <strong>Diff Pixels:</strong> " ++ toString r.diffPixels ++ "<br>\n" ++
    "          <strong>Diff Percentage:</strong> " ++ toFixed2 r.diffPercentage ++ "%\n        "
   else "") ++
  "\n      </div>\n      " ++
  (if !r.matched then
    "\n        <div class=\"images\">\n" ++
    "          <div class=\"image-container\">\n            <h4>Baseline</h4>\n" ++
    "            <img src=\"" ++ r.baselineUrl ++ "\" alt=\"Baseline\">\n          </div>\n" ++
    "          <div class=\"image-container\">\n            <h4>Actual</h4>\n" ++
    "            <img src=\"" ++ r.actualUrl ++ "\" alt=\"Actual\">\n          </div>\n" ++
    "          <div class=\"image-container\">\n            <h4>Diff</h4>\n" ++
    "            <img src=\"" ++ r.diffUrl ++ "\" alt=\"Diff\">\n          </div>\n" ++
    "        </div>\n      "
   else "") ++
  "\n    </div>\n  "

/-- The fixed head of the report template (doctype, title and style
sheet; literal braces written as escapes). -/
def reportHeader : String :=
  "\n<!DOCTYPE html>\n<html>\n<head>\n  <title>Visual Regression Report</title>\n  <style>\n" ++
  "    body \x7b font-family: Arial, sans-serif; margin: 20px; \x7d\n" ++
  "    .test \x7b margin-bottom: 30px; border: 1px solid #ddd; padding: 15px; \x7d\n" ++
  "    .pass \x7b background-color: #e8f5e9; \x7d\n" ++
  "    .fail \x7b background-color: #ffebee; \x7d\n" ++
  "    .images \x7b display: flex; gap: 10px; margin-top: 10px; \x7d\n" ++
  "    .image-container \x7b flex: 1; \x7d\n" ++
  "    .image-container img \x7b max-width: 100%; border: 1px solid #ccc; \x7d\n" ++
  "    .stats \x7b margin: 10px 0; font-size: 14px; \x7d\n" ++
  "    h1 \x7b color: #333; \x7d\n" ++
  "    h2 \x7b color: #666; \x7d\n" ++
  "    .summary \x7b background: #f5f5f5; padding: 15px; margin-bottom: 20px; \x7d\n" ++
  "  </style>\n</head>\n<body>\n"

/-- Everything of the report that precedes the embedded timestamp: the
head plus the summary counts (`results.length`, the matched count, the
unmatched count) up to the `Generated:` label. -/
def reportPre (results : List VisualResult) : String :=
  reportHeader ++
  "  <h1>Visual Regression Test Report</h1>\n  <div class=\"summary\">\n    <h2>Summary</h2>\n" ++
  "    <p>Total Tests: " ++ toString results.length ++ "</p>\n" ++
  "    <p>Passed: " ++ toString (results.countP (fun r => r.matched)) ++ "</p>\n" ++
  "    <p>Failed: " ++ toString (results.countP (fun r => !r.matched)) ++ "</p>\n" ++
  "    <p>Generated: "

/-- Everything of the report that follows the embedded timestamp: the
joined per-result blocks and the closing tags. -/
def reportPost (results : List VisualResult) : String :=
  "</p>\n  </div>\n  \n  " ++ String.join (results.map renderResultBlock) ++ "\n</body>\n</html>\n    "

/-- The full report document built by `generateDiffReport`, with the
`new Date().toLocaleString()` value passed in explicitly as
`timestamp`. -/
def generateDiffReportHtml (timestamp : String) (results : List VisualResult) : String :=
  reportPre results ++ timestamp ++ reportPost results

namespace VisualTestHelper

/-- `VisualTestHelper.generateDiffReport(results)`: renders the template
and performs exactly one file write, `report.html` under the helper's
output directory.  Returned as the list of (path, content) writes. -/
def generateDiffReport (timestamp : String) (results : List VisualResult)
    (outputDir : String) : List (String × String) :=
  [(outputDir ++ "/report.html", generateDiffReportHtml timestamp results)]

end VisualTestHelper

/-- The (name, status) projection of the report's per-result blocks: one
entry per element of `results`, whose status word is the one
`renderResultBlock` displays. -/
def reportEntries (results : List VisualResult) : List (String × String) :=
  results.map (fun r => (r.name, statusText r))

/-- One test record as consumed by `processSpec` of the global-teardown
file (`test.status`, `test.duration`, `test.retry`; the per-browser
bookkeeping is not needed by any claim). -/
structure TestRec where
  status : String
  duration : Nat
  retry : Nat
deriving DecidableEq, Repr

/-- The `summary.stats` accumulator of `generateTestSummary`. -/
structure Stats where
  total : Nat
  passed : Nat
  failed : Nat
  skipped : Nat
  flaky : Nat
  duration : Nat
deriving DecidableEq, Repr

/-- The per-test body of `processSpec`: bump `total` and `duration`,
dispatch on `test.status` (`passed` / `failed` or `timedOut` /
`skipped`; anything else touches no counter), and count a retried pass
as flaky. -/
def processTest (s : Stats) (t : TestRec) : Stats :=
  let s := { s with total := s.total + 1, duration := s.duration + t.duration }
  let s :=
    if t.status = "passed" then { s with passed := s.passed + 1 }
    else if t.status = "failed" ∨ t.status = "timedOut" then { s with failed := s.failed + 1 }
    else if t.status = "skipped" then { s with skipped := s.skipped + 1 }
    else s
  if 0 < t.retry ∧ t.status = "passed" then { s with flaky := s.flaky + 1 } else s

/-- The stats accumulated by `processSuites`/`processSpec` over the
(flattened) list of test records of the results file. -/
def computeStats (tests : List TestRec) : Stats :=
  tests.foldl processTest ⟨0, 0, 0, 0, 0, 0⟩

/-- JavaScript `Math.round`: round half toward positive infinity. -/
def jsRound (x : ℚ) : ℤ := ⌊x + 1 / 2⌋

/-- The summary produced by `generateTestSummary`, reduced to the fields
the claims touch. -/
structure TestSummary where
  stats : Stats
  passRate : ℤ
deriving DecidableEq, Repr

/-- `generateTestSummary`: accumulate the stats, then
`stats.passRate = stats.total > 0 ? Math.round((stats.passed /
stats.total) * 100) : 0`. -/
def generateTestSummary (tests : List TestRec) : TestSummary :=
  let stats := computeStats tests
  { stats := stats
    passRate :=
      if 0 < stats.total then jsRound (((stats.passed : ℚ) / (stats.total : ℚ)) * 100)
      else 0 }

/-- Opaque white pixel. -/
def whitePx : Pixel := ⟨255, 255, 255, 255⟩

/-- Opaque black pixel. -/
def blackPx : Pixel := ⟨0, 0, 0, 255⟩

/-- 2×1 all-white image. -/
def img2x1White : PNGImage := ⟨2, 1, [whitePx, whitePx]⟩

/-- 2×1 image with a black pixel at column 0. -/
def img2x1BlackWhite : PNGImage := ⟨2, 1, [blackPx, whitePx]⟩

/-- 1×2 all-white image (the transpose of `img2x1White`). -/
def img1x2White : PNGImage := ⟨1, 2, [whitePx, whitePx]⟩

/-- 1×1 all-white image. -/
def img1x1White : PNGImage := ⟨1, 1, [whitePx]⟩

/-- 1×1 all-black image. -/
def img1x1Black : PNGImage := ⟨1, 1, [blackPx]⟩

/-- 2×2 all-white image. -/
def img2x2White : PNGImage := ⟨2, 2, [whitePx, whitePx, whitePx, whitePx]⟩

/-- 3×1 all-white image: same pixel count as `img1x1White`? no — used
for size-mismatch runs. -/
def img3x1White : PNGImage := ⟨3, 1, [whitePx, whitePx, whitePx]⟩

/-- A two-file file system holding an actual and a baseline screenshot. -/
def mkFs (act base : PNGImage) : String → Option PNGImage :=
  fun p =>
    if p = "actual.png" then some act
    else if p = "baseline.png" then some base
    else none

theorem colorDelta_self (p : Pixel) : colorDelta p p = 0 := by
  unfold colorDelta
  simp

theorem maxDelta_nonneg (t : ℚ) : 0 ≤ maxDelta t := by
  unfold maxDelta
  nlinarith [mul_self_nonneg t]

theorem pixelDiffers_self (t : ℚ) (p : Pixel) : pixelDiffers t p p = false := by
  unfold pixelDiffers
  simp only [colorDelta_self, absQ, decide_eq_false_iff_not, not_lt]
  rw [if_neg (by norm_num)]
  exact maxDelta_nonneg t

theorem pixelmatchCount_self (l : List Pixel) (t : ℚ) : pixelmatchCount l l t = 0 := by
  unfold pixelmatchCount
  induction l with
  | nil => simp
  | cons x xs ih =>
    rw [List.zip_cons_cons, List.countP_cons]
    simp only [pixelDiffers_self]
    simpa using ih

theorem pixelDiffers_white_black : pixelDiffers (1 / 10) whitePx blackPx = true := by
  unfold pixelDiffers colorDelta blendPixel rgb2y rgb2i rgb2q maxDelta absQ whitePx blackPx
  norm_num

theorem pixelDiffers_white_white : pixelDiffers (1 / 10) whitePx whitePx = false :=
  pixelDiffers_self _ _

/-- Diff bitmap of the 2×1 one-black-pixel run. -/
def diffBW : PNGImage := ⟨2, 1, [⟨255, 0, 0, 255⟩, ⟨128, 128, 128, 255⟩]⟩

theorem run_bw :
    VisualTestHelper.compareScreenshots (mkFs img2x1BlackWhite img2x1White)
      "actual.png" "baseline.png" "diff.png" (1 / 10)
      = Except.ok (⟨false, 1, 50⟩, [("diff.png", diffBW)]) := by
  simp only [VisualTestHelper.compareScreenshots, mkFs, pixelmatch, pixelmatchCount, diffRender,
    img2x1BlackWhite, img2x1White, diffBW, pixelDiffers_white_black, pixelDiffers_white_white,
    List.zip_cons_cons, List.zip_nil_right, List.countP_cons, List.countP_nil, List.map_cons,
    List.map_nil, List.length_cons, List.length_nil, String.reduceEq, reduceIte, ite_true,
    ite_false, Bool.false_eq_true, if_true, if_false]
  norm_num

theorem run_transposed :
    VisualTestHelper.compareScreenshots (mkFs img2x1White img1x2White)
      "actual.png" "baseline.png" "diff.png" (1 / 10)
      = Except.ok (⟨true, 0, 0⟩, []) := by
  simp only [VisualTestHelper.compareScreenshots, mkFs, pixelmatch, pixelmatchCount,
    img2x1White, img1x2White, pixelDiffers_white_white, List.zip_cons_cons, List.zip_nil_right,
    List.countP_cons, List.countP_nil, List.length_cons, List.length_nil, String.reduceEq,
    reduceIte]
  norm_num

/-- Diff bitmap of the 1×1 white-vs-black run. -/
def diff1x1 : PNGImage := ⟨1, 1, [⟨255, 0, 0, 255⟩]⟩

theorem run_1x1 :
    VisualTestHelper.compareScreenshots (mkFs img1x1Black img1x1White)
      "actual.png" "baseline.png" "diff.png" (1 / 10)
      = Except.ok (⟨false, 1, 100⟩, [("diff.png", diff1x1)]) := by
  simp only [VisualTestHelper.compareScreenshots, mkFs, pixelmatch, pixelmatchCount, diffRender,
    img1x1Black, img1x1White, diff1x1, pixelDiffers_white_black, List.zip_cons_cons,
    List.zip_nil_right, List.countP_cons, List.countP_nil, List.map_cons, List.map_nil,
    List.length_cons, List.length_nil, String.reduceEq, reduceIte]
  norm_num

theorem run_alias :
    VisualTestHelper.compareScreenshots (mkFs img1x1Black img1x1White)
      "actual.png" "baseline.png" "baseline.png" (1 / 10)
      = Except.ok (⟨false, 1, 100⟩, [("baseline.png", diff1x1)]) := by
  simp only [VisualTestHelper.compareScreenshots, mkFs, pixelmatch, pixelmatchCount, diffRender,
    img1x1Black, img1x1White, diff1x1, pixelDiffers_white_black, List.zip_cons_cons,
    List.zip_nil_right, List.countP_cons, List.countP_nil, List.map_cons, List.map_nil,
    List.length_cons, List.length_nil, String.reduceEq, reduceIte]
  norm_num

theorem run_identical2x2 :
    VisualTestHelper.compareScreenshots (mkFs img2x2White img2x2White)
      "actual.png" "baseline.png" "diff.png" (1 / 10)
      = Except.ok (⟨true, 0, 0⟩, []) := by
  simp only [VisualTestHelper.compareScreenshots, mkFs, pixelmatch, pixelmatchCount,
    img2x2White, pixelDiffers_white_white, List.zip_cons_cons, List.zip_nil_right,
    List.countP_cons, List.countP_nil, List.length_cons, List.length_nil, String.reduceEq,
    reduceIte]
  norm_num

theorem run_mismatch :
    VisualTestHelper.compareScreenshots (mkFs img2x1White img3x1White)
      "actual.png" "baseline.png" "diff.png" (1 / 10)
      = Except.error "Image sizes do not match" := by
  simp only [VisualTestHelper.compareScreenshots, mkFs, pixelmatch,
    img2x1White, img3x1White, List.length_cons, List.length_nil, String.reduceEq, reduceIte]
  norm_num

theorem count_1x1 : pixelmatchCount img1x1White.data img1x1Black.data (1 / 10) = 1 := by
  simp only [pixelmatchCount, img1x1White, img1x1Black, List.zip_cons_cons, List.zip_nil_right,
    List.countP_cons, List.countP_nil, pixelDiffers_white_black]
  norm_num

/-- Inversion of a successful `compareScreenshots` run: both reads
succeeded, and the result and write list are the ones the source
computes from the differing-pixel count. -/
theorem compareScreenshots_ok_inv
    (fs : String → Option PNGImage) (a b d : String) (t : ℚ)
    (r : CompareResult) (ws : List (String × PNGImage))
    (h : VisualTestHelper.compareScreenshots fs a b d t = .ok (r, ws)) :
    ∃ act base, fs a = some act ∧ fs b = some base ∧
      r = ⟨pixelmatchCount base.data act.data t == 0,
           pixelmatchCount base.data act.data t,
           ((pixelmatchCount base.data act.data t : ℚ) /
             ((act.width : ℚ) * (act.height : ℚ))) * 100⟩ ∧
      ws = (if 0 < pixelmatchCount base.data act.data t
            then [(d, diffRender base act t)] else []) := by
  unfold VisualTestHelper.compareScreenshots at h
  split at h
  · exact absurd h (by simp)
  · rename_i act hfa
    split at h
    · exact absurd h (by simp)
    · rename_i base hfb
      split at h
      · exact absurd h (by simp)
      · rename_i n hn
        unfold pixelmatch at hn
        split at hn
        · exact absurd hn (by simp)
        · split at hn
          · exact absurd hn (by simp)
          · simp only [Except.ok.injEq] at hn
            simp only [Except.ok.injEq, Prod.mk.injEq] at h
            refine ⟨act, base, hfa, hfb, ?_, ?_⟩
            · rw [← h.1, ← hn]
            · rw [← h.2, ← hn]

/-- Helper: once both reads succeed, `compareScreenshots` is the
pixelmatch dispatch on the two decoded images. -/
theorem compareScreenshots_reads
    (fs : String → Option PNGImage) (a b d : String) (t : ℚ) (act base : PNGImage)
    (ha : fs a = some act) (hb : fs b = some base) :
    VisualTestHelper.compareScreenshots fs a b d t =
      (match pixelmatch base.data act.data act.width act.height t with
       | .error e => .error e
       | .ok numDiffPixels =>
         .ok ({ matched := numDiffPixels == 0
                diffPixels := numDiffPixels
                diffPercentage := ((numDiffPixels : ℚ) /
                  ((act.width : ℚ) * (act.height : ℚ))) * 100 },
              if numDiffPixels > 0 then [(d, diffRender base act t)] else [])) := by
  unfold VisualTestHelper.compareScreenshots
  rw [ha, hb]

/-- C1 counterexample: a run whose differing-pixel count (1) is within
the configured absolute cap (100) and whose difference percentage (50)
is within a relative cap of 100, yet which is reported as not matched —
the code gates `match` on a zero count, not on the caps. -/
theorem c1_counterexample :
    VisualTestHelper.compareScreenshots (mkFs img2x1BlackWhite img2x1White)
      "actual.png" "baseline.png" "diff.png" (1 / 10)
      = Except.ok (⟨false, 1, 50⟩, [("diff.png", diffBW)]) ∧
    ((⟨false, 1, 50⟩ : CompareResult).diffPixels ≤ 100 ∧
      (⟨false, 1, 50⟩ : CompareResult).diffPercentage ≤ 100) ∧
    (⟨false, 1, 50⟩ : CompareResult).matched = false :=
  ⟨run_bw, ⟨by norm_num, by norm_num⟩, rfl⟩

/-- C1 (amended): for every successful comparison, `matched` is true if
and only if the differing-pixel count is zero; no absolute-cap or
relative-cap gate exists in `compareScreenshots`. -/
theorem compareScreenshots_matched_iff_zero
    (fs : String → Option PNGImage) (a b d : String) (t : ℚ)
    (r : CompareResult) (ws : List (String × PNGImage))
    (h : VisualTestHelper.compareScreenshots fs a b d t = .ok (r, ws)) :
    r.matched = true ↔ r.diffPixels = 0 := by
  obtain ⟨act, base, -, -, hr, -⟩ := compareScreenshots_ok_inv fs a b d t r ws h
  subst hr
  simp

/-- Witness for `compareScreenshots_matched_iff_zero` at a concrete
successful run. -/
theorem compareScreenshots_matched_iff_zero_witness :
    (⟨true, 0, 0⟩ : CompareResult).matched = true ↔
      (⟨true, 0, 0⟩ : CompareResult).diffPixels = 0 :=
  compareScreenshots_matched_iff_zero (mkFs img2x2White img2x2White)
    "actual.png" "baseline.png" "diff.png" (1 / 10) ⟨true, 0, 0⟩ [] run_identical2x2

/-- C2 counterexample: on a 2×1 pair with one differing pixel and no
masks, the code returns 50 (count over all pixels, scaled by 100), not
the claimed `differingPixels / (width*height - maskedPixelCount)` =
1/2. -/
theorem c2_counterexample :
    VisualTestHelper.compareScreenshots (mkFs img2x1BlackWhite img2x1White)
      "actual.png" "baseline.png" "diff.png" (1 / 10)
      = Except.ok (⟨false, 1, 50⟩, [("diff.png", diffBW)]) ∧
    (⟨false, 1, 50⟩ : CompareResult).diffPercentage ≠
      ((⟨false, 1, 50⟩ : CompareResult).diffPixels : ℚ) /
        (((img2x1BlackWhite.width : ℚ) * (img2x1BlackWhite.height : ℚ)) - 0) :=
  ⟨run_bw, by norm_num [img2x1BlackWhite]⟩

/-- C2 (amended): the difference percentage of a successful comparison
is `diffPixels / (width * height) * 100` over the actual image's
dimensions — no mask subtraction (the operation takes no masks) and a
factor of 100. -/
theorem compareScreenshots_percentage
    (fs : String → Option PNGImage) (a b d : String) (t : ℚ) (act : PNGImage)
    (r : CompareResult) (ws : List (String × PNGImage))
    (ha : fs a = some act)
    (h : VisualTestHelper.compareScreenshots fs a b d t = .ok (r, ws)) :
    r.diffPercentage = ((r.diffPixels : ℚ) /
      ((act.width : ℚ) * (act.height : ℚ))) * 100 := by
  obtain ⟨act2, base, ha2, -, hr, -⟩ := compareScreenshots_ok_inv fs a b d t r ws h
  rw [ha] at ha2
  injection ha2 with e
  subst e
  subst hr
  rfl

/-- Witness for `compareScreenshots_percentage` at the 2×1 run. -/
theorem compareScreenshots_percentage_witness :
    (⟨false, 1, 50⟩ : CompareResult).diffPercentage =
      (((⟨false, 1, 50⟩ : CompareResult).diffPixels : ℚ) /
        ((img2x1BlackWhite.width : ℚ) * (img2x1BlackWhite.height : ℚ))) * 100 :=
  compareScreenshots_percentage (mkFs img2x1BlackWhite img2x1White)
    "actual.png" "baseline.png" "diff.png" (1 / 10) img2x1BlackWhite
    ⟨false, 1, 50⟩ [("diff.png", diffBW)] rfl run_bw

/-- C3 counterexample: a 1×2 baseline against a 2×1 actual — widths and
heights both differ — is compared anyway (equal byte counts slip past
the external library's size check) and returns a full result instead of
failing. -/
theorem c3_counterexample :
    img1x2White.width ≠ img2x1White.width ∧
    img1x2White.height ≠ img2x1White.height ∧
    VisualTestHelper.compareScreenshots (mkFs img2x1White img1x2White)
      "actual.png" "baseline.png" "diff.png" (1 / 10)
      = Except.ok (⟨true, 0, 0⟩, []) :=
  ⟨by decide, by decide, run_transposed⟩

/-- C3 (amended): when the two images' pixel counts differ, the
comparison fails with the diff library's generic size error (there is no
dedicated `DimensionMismatchError`) and returns no result; dimension
pairs with equal pixel counts are not detected. -/
theorem compareScreenshots_dimension_mismatch
    (fs : String → Option PNGImage) (a b d : String) (t : ℚ) (act base : PNGImage)
    (ha : fs a = some act) (hb : fs b = some base)
    (hwa : act.data.length = act.width * act.height)
    (hwb : base.data.length = base.width * base.height)
    (hne : base.width * base.height ≠ act.width * act.height) :
    VisualTestHelper.compareScreenshots fs a b d t
      = Except.error "Image sizes do not match" := by
  rw [compareScreenshots_reads fs a b d t act base ha hb]
  have hlen : base.data.length ≠ act.data.length := by
    rw [hwa, hwb]; exact hne
  unfold pixelmatch
  rw [if_pos hlen]

/-- Witness for `compareScreenshots_dimension_mismatch` on a 3×1
baseline vs a 2×1 actual. -/
theorem compareScreenshots_dimension_mismatch_witness :
    VisualTestHelper.compareScreenshots (mkFs img2x1White img3x1White)
      "actual.png" "baseline.png" "diff.png" (1 / 10)
      = Except.error "Image sizes do not match" :=
  compareScreenshots_dimension_mismatch (mkFs img2x1White img3x1White)
    "actual.png" "baseline.png" "diff.png" (1 / 10) img2x1White img3x1White
    rfl rfl (by decide) (by decide) (by decide)

/-- C4 counterexample: a 1×1 pair whose only difference lies inside a
declared mask rectangle covering the whole image still comes back
`matched=false` — `compareScreenshots` has no mask parameter and counts
every pixel. -/
theorem c4_counterexample :
    differOnlyInside [⟨0, 0, 1, 1⟩] img1x1White img1x1Black = true ∧
    VisualTestHelper.compareScreenshots (mkFs img1x1Black img1x1White)
      "actual.png" "baseline.png" "diff.png" (1 / 10)
      = Except.ok (⟨false, 1, 100⟩, [("diff.png", diff1x1)]) ∧
    (⟨false, 1, 100⟩ : CompareResult).matched = false :=
  ⟨by decide, run_1x1, rfl⟩

/-- C4 (amended): mask rectangles never reach the comparison operation;
whatever rectangles are supplied, a pair that differs only inside them
but has at least one differing pixel beyond the threshold is reported
`matched=false`. -/
theorem compareScreenshots_ignores_masks
    (fs : String → Option PNGImage) (a b d : String) (t : ℚ) (rects : List Rect)
    (act base : PNGImage) (r : CompareResult) (ws : List (String × PNGImage))
    (ha : fs a = some act) (hb : fs b = some base)
    (_hmask : differOnlyInside rects base act = true)
    (hdiff : 0 < pixelmatchCount base.data act.data t)
    (h : VisualTestHelper.compareScreenshots fs a b d t = .ok (r, ws)) :
    r.matched = false := by
  obtain ⟨act2, base2, ha2, hb2, hr, -⟩ := compareScreenshots_ok_inv fs a b d t r ws h
  rw [ha] at ha2
  rw [hb] at hb2
  injection ha2 with ea
  injection hb2 with eb
  subst ea
  subst eb
  subst hr
  simp only [beq_eq_false_iff_ne, ne_eq]
  omega

/-- Witness for `compareScreenshots_ignores_masks` at the fully masked
1×1 run. -/
theorem compareScreenshots_ignores_masks_witness :
    (⟨false, 1, 100⟩ : CompareResult).matched = false :=
  compareScreenshots_ignores_masks (mkFs img1x1Black img1x1White)
    "actual.png" "baseline.png" "diff.png" (1 / 10) [⟨0, 0, 1, 1⟩]
    img1x1Black img1x1White ⟨false, 1, 100⟩ [("diff.png", diff1x1)]
    rfl rfl (by decide) (by rw [count_1x1]; exact Nat.one_pos) run_1x1

/-- C5: comparing a byte-identical pair (well-formed PNG read from both
paths) returns `matched=true`, `diffPixels=0`, percentage 0, and
performs no file write (no diff image). -/
theorem compareScreenshots_identical
    (fs : String → Option PNGImage) (a b d : String) (t : ℚ) (img : PNGImage)
    (ha : fs a = some img) (hb : fs b = some img)
    (hw : img.data.length = img.width * img.height) :
    VisualTestHelper.compareScreenshots fs a b d t = Except.ok (⟨true, 0, 0⟩, []) := by
  rw [compareScreenshots_reads fs a b d t img img ha hb]
  unfold pixelmatch
  rw [if_neg (by simp), if_neg (by simp [hw]), pixelmatchCount_self]
  simp

/-- Witness for `compareScreenshots_identical` on the all-white 2×2
image. -/
theorem compareScreenshots_identical_witness :
    VisualTestHelper.compareScreenshots (mkFs img2x2White img2x2White)
      "actual.png" "baseline.png" "diff.png" (1 / 10) = Except.ok (⟨true, 0, 0⟩, []) :=
  compareScreenshots_identical (mkFs img2x2White img2x2White)
    "actual.png" "baseline.png" "diff.png" (1 / 10) img2x2White rfl rfl (by decide)

/-- C6 counterexample: an invocation whose diff path aliases the
baseline path overwrites the baseline file — the code never guards the
two paths apart. -/
theorem c6_counterexample :
    VisualTestHelper.compareScreenshots (mkFs img1x1Black img1x1White)
      "actual.png" "baseline.png" "baseline.png" (1 / 10)
      = Except.ok (⟨false, 1, 100⟩, [("baseline.png", diff1x1)]) ∧
    applyWrites (mkFs img1x1Black img1x1White) [("baseline.png", diff1x1)] "baseline.png"
      ≠ mkFs img1x1Black img1x1White "baseline.png" :=
  ⟨run_alias, by decide⟩

/-- C6 (amended): provided the supplied diff path differs from the
baseline path, a comparison run leaves the baseline file unchanged — its
only possible write is the diff artifact. -/
theorem compareScreenshots_baseline_readonly
    (fs : String → Option PNGImage) (a b d : String) (t : ℚ)
    (r : CompareResult) (ws : List (String × PNGImage))
    (hne : d ≠ b)
    (h : VisualTestHelper.compareScreenshots fs a b d t = .ok (r, ws)) :
    applyWrites fs ws b = fs b := by
  obtain ⟨act, base, -, -, -, hws⟩ := compareScreenshots_ok_inv fs a b d t r ws h
  subst hws
  by_cases h0 : 0 < pixelmatchCount base.data act.data t
  · rw [if_pos h0]
    unfold applyWrites
    simp only [List.foldl_cons, List.foldl_nil]
    exact if_neg (fun hbd => hne hbd.symm)
  · rw [if_neg h0]
    rfl

/-- Witness for `compareScreenshots_baseline_readonly` at the 2×1 run
with distinct paths. -/
theorem compareScreenshots_baseline_readonly_witness :
    applyWrites (mkFs img2x1BlackWhite img2x1White) [("diff.png", diffBW)] "baseline.png"
      = mkFs img2x1BlackWhite img2x1White "baseline.png" :=
  compareScreenshots_baseline_readonly (mkFs img2x1BlackWhite img2x1White)
    "actual.png" "baseline.png" "diff.png" (1 / 10) ⟨false, 1, 50⟩
    [("diff.png", diffBW)] (by decide) run_bw

/-- C7: a successful comparison writes the diff file exactly when the
differing-pixel count is positive — one write at the diff path when
`diffPixels > 0`, no write at all when `diffPixels = 0`. -/
theorem compareScreenshots_diff_write_iff
    (fs : String → Option PNGImage) (a b d : String) (t : ℚ)
    (r : CompareResult) (ws : List (String × PNGImage))
    (h : VisualTestHelper.compareScreenshots fs a b d t = .ok (r, ws)) :
    (0 < r.diffPixels ↔ ∃ img, ws = [(d, img)]) ∧ (r.diffPixels = 0 ↔ ws = []) := by
  obtain ⟨act, base, -, -, hr, hws⟩ := compareScreenshots_ok_inv fs a b d t r ws h
  subst hr
  subst hws
  dsimp only
  by_cases h0 : 0 < pixelmatchCount base.data act.data t
  · rw [if_pos h0]
    refine ⟨⟨fun _ => ⟨diffRender base act t, rfl⟩, fun _ => h0⟩, ?_, ?_⟩
    · intro h1
      omega
    · intro h1
      exact absurd h1 (by simp)
  · rw [if_neg h0]
    refine ⟨⟨fun hc => absurd hc h0, ?_⟩, ?_, fun _ => by omega⟩
    · rintro ⟨img, hi⟩
      exact absurd hi (by simp)
    · intro _
      rfl

/-- Witness for `compareScreenshots_diff_write_iff` at the 2×1 run with
one differing pixel. -/
theorem compareScreenshots_diff_write_iff_witness :
    (0 < (⟨false, 1, 50⟩ : CompareResult).diffPixels ↔
      ∃ img, [("diff.png", diffBW)] = [("diff.png", img)]) ∧
    ((⟨false, 1, 50⟩ : CompareResult).diffPixels = 0 ↔
      ([("diff.png", diffBW)] : List (String × PNGImage)) = []) :=
  compareScreenshots_diff_write_iff (mkFs img2x1BlackWhite img2x1White)
    "actual.png" "baseline.png" "diff.png" (1 / 10) ⟨false, 1, 50⟩
    [("diff.png", diffBW)] run_bw

/-- C8: the report builder is a pure projection of its inputs — each
call performs exactly one write (the report file, never a baseline or a
capture), and two calls on the same outcome list produce documents that
are identical except for the timestamp slot. -/
theorem generateDiffReport_idempotent (results : List VisualResult) (dir t1 t2 : String) :
    (VisualTestHelper.generateDiffReport t1 results dir).map Prod.fst
        = [dir ++ "/report.html"] ∧
    (VisualTestHelper.generateDiffReport t2 results dir).map Prod.fst
        = [dir ++ "/report.html"] ∧
    ∃ pre post, generateDiffReportHtml t1 results = pre ++ t1 ++ post ∧
      generateDiffReportHtml t2 results = pre ++ t2 ++ post :=
  ⟨rfl, rfl, ⟨reportPre results, reportPost results, rfl, rfl⟩⟩

/-- C9 counterexample: a failing outcome is rendered with status
`FAILED`, which is not one of the five spec statuses \x7bpassed,
failed-visual, failed-environment, failed-layout, baseline-created\x7d —
the report only knows PASSED/FAILED. -/
theorem c9_counterexample :
    reportEntries [⟨"t1", false, 5, 5, "b.png", "a.png", "d.png"⟩]
      = [("t1", "FAILED")] ∧
    "FAILED" ∉ (["passed", "failed-visual", "failed-environment",
      "failed-layout", "baseline-created"] : List String) :=
  ⟨rfl, by decide⟩

/-- C9 (amended): the report lists exactly one entry per outcome handed
to it, and every entry's status is either `PASSED` or `FAILED` — the
finer environment/layout/baseline categories do not exist in the
builder. -/
theorem reportEntries_status (results : List VisualResult) :
    (reportEntries results).length = results.length ∧
    ∀ e ∈ reportEntries results, e.2 = "PASSED" ∨ e.2 = "FAILED" := by
  refine ⟨by simp [reportEntries], ?_⟩
  intro e he
  simp only [reportEntries, List.mem_map] at he
  obtain ⟨r, -, rfl⟩ := he
  cases hm : r.matched <;> simp [statusText, hm]

/-- Witness for `reportEntries_status` at a concrete failing entry. -/
theorem reportEntries_status_witness :
    (("t1", "FAILED") : String × String).2 = "PASSED" ∨
      (("t1", "FAILED") : String × String).2 = "FAILED" :=
  (reportEntries_status [⟨"t1", false, 5, 5, "b.png", "a.png", "d.png"⟩]).2
    ("t1", "FAILED") (by simp [reportEntries, statusText])

theorem computeStats_passed_le_total (tests : List TestRec) :
    (computeStats tests).passed ≤ (computeStats tests).total := by
  suffices h : ∀ s : Stats, s.passed ≤ s.total →
      (tests.foldl processTest s).passed ≤ (tests.foldl processTest s).total by
    exact h ⟨0, 0, 0, 0, 0, 0⟩ (Nat.le_refl 0)
  induction tests with
  | nil => intro s hs; exact hs
  | cons t ts ih =>
    intro s hs
    simp only [List.foldl_cons]
    apply ih
    unfold processTest
    dsimp only
    repeat' split
    all_goals dsimp only
    all_goals omega

/-- C10: the summary's pass rate equals `round(100 * passed / total)`
when the total is positive and `0` when the total is zero (total, in
particular, never divides by zero), and it always lies between 0 and
100. -/
theorem generateTestSummary_passRate (tests : List TestRec) :
    (generateTestSummary tests).passRate
      = (if 0 < (generateTestSummary tests).stats.total
         then ⌊(100 * ((generateTestSummary tests).stats.passed : ℚ)) /
                ((generateTestSummary tests).stats.total : ℚ) + 1 / 2⌋
         else 0) ∧
    0 ≤ (generateTestSummary tests).passRate ∧
    (generateTestSummary tests).passRate ≤ 100 := by
  have hpt := computeStats_passed_le_total tests
  unfold generateTestSummary jsRound
  dsimp only
  refine ⟨?_, ?_, ?_⟩
  · split
    · congr 1
      ring
    · rfl
  · split
    · apply Int.floor_nonneg.mpr
      positivity
    · exact le_refl 0
  · split
    · rename_i htot
      have ht : (0 : ℚ) < ((computeStats tests).total : ℚ) := by exact_mod_cast htot
      have hx : ((computeStats tests).passed : ℚ) /
          ((computeStats tests).total : ℚ) * 100 ≤ 100 := by
        rw [div_mul_eq_mul_div, div_le_iff₀ ht]
        have : ((computeStats tests).passed : ℚ) ≤ ((computeStats tests).total : ℚ) := by
          exact_mod_cast hpt
        nlinarith
      have hlt : ⌊((computeStats tests).passed : ℚ) /
          ((computeStats tests).total : ℚ) * 100 + 1 / 2⌋ < 101 := by
        apply Int.floor_lt.mpr
        push_cast
        linarith
      omega
    · norm_num
